import Mathlib

/-!
Verification development for the ParseLink repository.

Shallow embedding of the two core subsystems:
* the hybrid AES-CBC / RSA encryption envelope (src/api/encryption.py), and
* the URL-resolution-with-cache subsystem (src/api/views.py).

Byte strings are modelled as `List Nat` (each entry a byte value).  Calls into
external libraries (the AES block permutation, RSA-OAEP, `json`, `hashlib`,
`requests`, BeautifulSoup and `re`) are modelled as function parameters or
oracle fields; everything written in the repository itself (padding, CBC
assembly, envelope wiring, cache logic, URL construction, the resolver
control flow and the orchestrator) is translated directly from the source.
Base64 transport encoding (an external bijection) is dropped: envelope fields
hold the raw bytes that base64 would carry.
-/

/-- PKCS7 padding, from `AESEncryption._pad_data` (src/api/encryption.py:202-207):
`padding_length = 16 - (len(data) % 16); return data + bytes([padding_length] * padding_length)`. -/
def pad_data (data : List Nat) : List Nat :=
  data ++ List.replicate (16 - data.length % 16) (16 - data.length % 16)

/-- PKCS7 unpadding, from `AESEncryption._unpad_data` (src/api/encryption.py:209-213):
`padding_length = padded_data[-1]; return padded_data[:-padding_length]`.
`none` models the IndexError raised on an empty buffer.  Python slicing
`b[:-k]` yields the empty bytes when `k = 0`, hence the special case.
No validation of the padding bytes is performed, exactly as in the source. -/
def unpad_data (padded_data : List Nat) : Option (List Nat) :=
  match padded_data.getLast? with
  | none => none
  | some k => some (if k = 0 then [] else padded_data.take (padded_data.length - k))

/-- Pointwise XOR of two byte strings (the CBC chaining operation). -/
def xorBytes (a b : List Nat) : List Nat :=
  List.zipWith (fun x y => x ^^^ y) a b

/-- Flip (XOR) the byte at index `i` by `delta`; models the tamper test of the spec. -/
def flipByte : Nat → Nat → List Nat → List Nat
  | _, _, [] => []
  | 0, d, b :: rest => (b ^^^ d) :: rest
  | i + 1, d, b :: rest => b :: flipByte i d rest

/-- Fuel-indexed splitting of a byte string into 16-byte blocks. -/
def chunksAux : Nat → List Nat → List (List Nat)
  | 0, _ => []
  | _, [] => []
  | n + 1, b :: rest => ((b :: rest).take 16) :: chunksAux n ((b :: rest).drop 16)

/-- Split a byte string into its consecutive 16-byte blocks. -/
def chunks16 (l : List Nat) : List (List Nat) :=
  chunksAux l.length l

/-- CBC-mode encryption over an abstract 16-byte block permutation `E`
(the library AES encryptor under the session key); `prev` is the previous
ciphertext block, initially the IV. -/
def cbcEnc (E : List Nat → List Nat) : List Nat → List (List Nat) → List (List Nat)
  | _, [] => []
  | prev, b :: bs =>
    E (xorBytes prev b) :: cbcEnc E (E (xorBytes prev b)) bs

/-- CBC-mode decryption over an abstract block inverse `D`. -/
def cbcDec (D : List Nat → List Nat) : List Nat → List (List Nat) → List (List Nat)
  | _, [] => []
  | prev, c :: cs => xorBytes prev (D c) :: cbcDec D c cs

/-- Is `b` a UTF-8 continuation byte (10xxxxxx)? -/
def utf8Cont (b : Nat) : Bool := 128 ≤ b && b < 192

/-- UTF-8 validity of a byte string; models the `.decode("utf-8")` step of
`AESEncryption.decrypt_data`, which raises on invalid input. -/
def isValidUTF8 : List Nat → Bool
  | [] => true
  | b :: rest =>
    if b < 128 then isValidUTF8 rest
    else if b < 194 then false
    else if b < 224 then
      match rest with
      | c1 :: rest1 => utf8Cont c1 && isValidUTF8 rest1
      | [] => false
    else if b < 240 then
      match rest with
      | c1 :: c2 :: rest2 =>
        utf8Cont c1 && utf8Cont c2 &&
          (b != 224 || 160 ≤ c1) && (b != 237 || c1 < 160) && isValidUTF8 rest2
      | _ => false
    else if b < 245 then
      match rest with
      | c1 :: c2 :: c3 :: rest3 =>
        utf8Cont c1 && utf8Cont c2 && utf8Cont c3 &&
          (b != 240 || 144 ≤ c1) && (b != 244 || c1 < 144) && isValidUTF8 rest3
      | _ => false
    else false

/-- Model of `AESEncryption.encrypt_data` (src/api/encryption.py:140-170): pad, CBC-encrypt
with a fresh IV, return `IV || ciphertext` (base64 transport dropped).
`E` is the AES block permutation under the session key. -/
def encrypt_data (E : List Nat → List Nat) (iv data : List Nat) : List Nat :=
  iv ++ (cbcEnc E iv (chunks16 (pad_data data))).flatten

/-- Model of `AESEncryption.decrypt_data` (src/api/encryption.py:172-200): split off the
16-byte IV, CBC-decrypt, unpad, UTF-8-decode.  `none` models the generic
`ValueError("Failed to decrypt data with AES")` raised when any step fails
(block-size mismatch in the cipher, IndexError in unpadding, decode error). -/
def decrypt_data (D : List Nat → List Nat) (encrypted_data : List Nat) : Option (List Nat) :=
  let iv := encrypted_data.take 16
  let ct := encrypted_data.drop 16
  if ct.length % 16 = 0 then
    match unpad_data ((cbcDec D iv (chunks16 ct)).flatten) with
    | none => none
    | some d => if isValidUTF8 d then some d else none
  else none

/-- The wire envelope `{encrypted_data, encrypted_session_key}` of
`HybridEncryption` (src/api/encryption.py:221-265), with both fields holding
the raw bytes that the base64 strings transport. -/
structure Envelope where
  encrypted_data : List Nat
  encrypted_session_key : List Nat
deriving DecidableEq

/-- Model of `HybridEncryption.encrypt_payload` (src/api/encryption.py:221-269):
AES-encrypt the data under a fresh session key, RSA-OAEP-encrypt the session
key.  `AESe` is the library AES block permutation (key → block → block) and
`Renc` the library RSA-OAEP encryption under the recipient public key. -/
def encrypt_payload (AESe : List Nat → List Nat → List Nat)
    (Renc : List Nat → List Nat) (session_key iv data : List Nat) : Envelope :=
  { encrypted_data := encrypt_data (AESe session_key) iv data,
    encrypted_session_key := Renc session_key }

/-- Model of `HybridEncryption.decrypt_payload` (src/api/encryption.py:271-304):
RSA-decrypt the session key, then AES-CBC-decrypt the data with it.
`none` models the generic `ValueError("Failed to decrypt payload")`. -/
def decrypt_payload (AESd : List Nat → List Nat → List Nat)
    (Rdec : List Nat → List Nat) (p : Envelope) : Option (List Nat) :=
  decrypt_data (AESd (Rdec p.encrypted_session_key)) p.encrypted_data

/-- Result of `decrypt_request`: parsed JSON on success of `json.loads`,
the raw decrypted string otherwise. -/
inductive ReqOut (α : Type) where
  | json : α → ReqOut α
  | raw : List Nat → ReqOut α
deriving DecidableEq

/-- Model of `encrypt_response` (src/api/encryption.py:314-318): JSON-serialize the
payload (`dumps` models `json.dumps`) and hybrid-encrypt it. -/
def encrypt_response {α : Type} (AESe : List Nat → List Nat → List Nat)
    (Renc : List Nat → List Nat) (session_key iv : List Nat)
    (dumps : α → List Nat) (data : α) : Envelope :=
  encrypt_payload AESe Renc session_key iv (dumps data)

/-- Model of `decrypt_request` (src/api/encryption.py:333-339): hybrid-decrypt, then
`json.loads` (modelled by `loads`), returning the raw string when the
decrypted bytes are not JSON.  `none` models the propagated ValueError. -/
def decrypt_request {α : Type} (AESd : List Nat → List Nat → List Nat)
    (Rdec : List Nat → List Nat) (loads : List Nat → Option α)
    (p : Envelope) : Option (ReqOut α) :=
  match decrypt_payload AESd Rdec p with
  | none => none
  | some s =>
    match loads s with
    | some a => some (ReqOut.json a)
    | none => some (ReqOut.raw s)

/-- Character-list prefix test; models Python `str.startswith`. -/
def listPrefixOf : List Char → List Char → Bool
  | [], _ => true
  | _ :: _, [] => false
  | a :: as, b :: bs => a == b && listPrefixOf as bs

/-- Character-list substring test; models the Python `in` operator on strings. -/
def listContains : List Char → List Char → Bool
  | pat, [] => listPrefixOf pat []
  | pat, c :: rest => listPrefixOf pat (c :: rest) || listContains pat rest

/-- Python `s.startswith(pre)` on strings. -/
def strStartsWith (s pre : String) : Bool := listPrefixOf pre.data s.data

/-- Python `pat in s` on strings. -/
def containsSub (s pat : String) : Bool := listContains pat.data s.data

/-- Outcome dictionary of `parse_vidsrc_url` (src/api/views.py:81-169).
The three shapes the function returns: the vidsrc result dict (with fields
`file_url`, `id` (here `data_i`), `player_iframe_src`,
`full_player_iframe_url`, `source_type`), the unknown-template fallback dict
(`url`, `title`, `first_paragraph`, `source_type`), and the error dict. -/
inductive ParseResult where
  | vidsrc (file_url : Option String) (data_i : Option String)
      (player_iframe_src : Option String) (full_player_iframe_url : Option String)
      (source_type : Option String)
  | unknown (url : String) (title : String) (first_paragraph : String)
      (source_type : Option String)
  | error (msg : String)
deriving DecidableEq

/-- Success test of the orchestrator, `result.get("file_url") and "error" not in
result` (src/api/views.py:720, 731, 882, 886): a truthy `file_url` (present,
non-None, non-empty) and no error key. -/
def isSuccessful : ParseResult → Bool
  | ParseResult.vidsrc (some f) _ _ _ _ => f != ""
  | _ => false

/-- Model of `result.get("source_type")`: key present (possibly None) on the vidsrc and
unknown dicts, absent on the error dict. -/
def source_type_of : ParseResult → Option String
  | ParseResult.vidsrc _ _ _ _ st => st
  | ParseResult.unknown _ _ _ st => st
  | ParseResult.error _ => none

/-- Model of `result.get("file_url", "")`: the stored value (possibly None) on the
vidsrc dict, the default empty string when the key is absent. -/
def file_url_field : ParseResult → Option String
  | ParseResult.vidsrc f _ _ _ _ => f
  | ParseResult.unknown _ _ _ _ => some ""
  | ParseResult.error _ => some ""

/-- Model of `result.get("id", "")` (the transcript id `data_i` captured from the root
page): stored value on the vidsrc dict, default empty string otherwise. -/
def transcript_id_field : ParseResult → Option String
  | ParseResult.vidsrc _ i _ _ _ => i
  | ParseResult.unknown _ _ _ _ => some ""
  | ParseResult.error _ => some ""

/-- State of the Redis client `r` (src/api/views.py:31-35): `absent` models
`r = None` (constructor raised), `failing` a client object whose operations
raise, `up` a reachable store holding serialized parse results by cache key. -/
inductive RState where
  | absent
  | failing
  | up (store : List (String × ParseResult))

/-- External library calls made by the resolver, as oracle functions:
`net` models `requests.get(u, timeout=10).text` (`none` = network error or
non-2xx raise), `bodyDataI` the BeautifulSoup lookup of the body `data-i`
attribute, `iframeSrcOf` the `src` attribute of the first iframe, `loadIframeSrcOf`
the `loadIframe(...){src: "..."}` regex group, `filePatternOf` the
`file: "..."` regex group, `titleOf`/`firstParagraphOf` the soup title and
first paragraph text, `domainOf` the `urlparse`-derived `scheme://netloc`,
and `hashHex` the `hashlib.sha256(url).hexdigest()` of a URL. -/
structure Oracles where
  net : String → Option String
  bodyDataI : String → Option String
  iframeSrcOf : String → Option String
  loadIframeSrcOf : String → Option String
  filePatternOf : String → Option String
  titleOf : String → String
  firstParagraphOf : String → String
  domainOf : String → String
  hashHex : String → String

/-- Model of `get_cache_key` (src/api/views.py:37-39): namespace tag plus hex digest. -/
def get_cache_key (O : Oracles) (url : String) : String :=
  "parsed_url:" ++ O.hashHex url

/-- Model of `CACHE_EXPIRE` (src/api/views.py:29): `2 * 24 * 60`, passed to Redis
`SETEX`, whose unit is seconds.  The inline comment in the source reads
"2 hours". -/
def CACHE_EXPIRE : Nat := 2 * 24 * 60

/-- A `SETEX` call: key, time-to-live (seconds) and stored value. -/
structure CacheWrite where
  key : String
  ttl : Nat
  value : ParseResult
deriving DecidableEq

/-- Model of `get_url_cache_result` (src/api/views.py:41-53): `None` when the client is
absent or raises (the except branch), otherwise the stored value. -/
def get_url_cache_result (O : Oracles) (rs : RState) (url : String) :
    Option ParseResult :=
  match rs with
  | RState.up store => store.lookup (get_cache_key O url)
  | _ => none

/-- Model of `save_url_cache_result` (src/api/views.py:55-65), as the list of `SETEX`
writes it performs: empty when the client is absent or the write raises. -/
def save_url_cache_result (O : Oracles) (rs : RState) (url : String)
    (parse_result : ParseResult) : List CacheWrite :=
  match rs with
  | RState.up _ => [⟨get_cache_key O url, CACHE_EXPIRE, parse_result⟩]
  | _ => []

/-- Python truthiness of an optional string: None and the empty string are
falsy. -/
def truthy : Option String → Bool
  | none => false
  | some s => s != ""

/-- Python `a or b` on two optional strings. -/
def pyOr (a b : Option String) : Option String := if truthy a then a else b

/-- The iframe `src` normalization (src/api/views.py:114-119): protocol-relative
gets `https:` prepended; `http`-prefixed kept; anything else kept as the
literal value. -/
def normalize_iframe_src (iframe_src : String) : String :=
  if strStartsWith iframe_src "//" then "https:" ++ iframe_src
  else if strStartsWith iframe_src "http" then iframe_src
  else iframe_src

/-- Prepend a slash unless one is present (src/api/views.py:131-132). -/
def ensureSlash (s : String) : String :=
  if strStartsWith s "/" then s else "/" ++ s

/-- The value the `player_iframe_src` variable holds after the mutation at
src/api/views.py:130-132 (the leading slash is written back). -/
def player_src_norm (player_iframe_src : String) : String :=
  if player_iframe_src != "" && !(strStartsWith player_iframe_src "http") then
    ensureSlash player_iframe_src
  else player_iframe_src

/-- The nested player URL resolution (src/api/views.py:130-135): non-`http`
non-empty references get the frame origin prepended (with a slash ensured);
`http`-prefixed or empty references are kept as given. -/
def full_player_url (domain player_iframe_src : String) : String :=
  if player_iframe_src != "" && !(strStartsWith player_iframe_src "http") then
    domain ++ ensureSlash player_iframe_src
  else player_iframe_src

/-- URL-family markers tested with `in` (src/api/views.py:100-107). -/
def netMarker : String := "vidsrc.net/embed/movie"

def xyzMarker : String := "vidsrc.xyz/embed/movie"

/-- The `source_type` computed from the url (src/api/views.py:100-105). -/
def source_type_for (url : String) : Option String :=
  if containsSub url netMarker then some "tmdb"
  else if containsSub url xyzMarker then some "imdb"
  else none

/-- One run of the resolver: its returned dict, the URLs it fetched (in
order), and the cache writes it performed. -/
structure PRun where
  result : ParseResult
  fetches : List String
  writes : List CacheWrite
deriving DecidableEq

/-- Model of `parse_vidsrc_url` (src/api/views.py:81-169), translated branch by branch.

Control-flow notes taken from the source:
* The initial `requests.get(url)` (line 95) sits INSIDE the `if r:` block
  (lines 89-97), so with the Redis client absent the fetch is skipped and the
  later `soup.find(...)` raises `NameError` (caught by the outer handler and
  returned as an error dict) — hence the `absent` branch below performs no
  fetch.  With a raising client, `r.get(cache_key)` (line 90) raises before
  the fetch, with the same effect.
* The cached value read on line 90 is never used (the early return on lines
  91-92 is commented out).
* The early `return` for a missing iframe (line 113) and every raised
  exception skip the `r.setex` on lines 164-165; every other result —
  successful or not, vidsrc or unknown fallback — is written to the cache. -/
def parse_vidsrc_url (O : Oracles) (rs : RState) (url : String) : PRun :=
  match rs with
  | RState.absent => ⟨ParseResult.error "NameError: soup is not defined", [], []⟩
  | RState.failing => ⟨ParseResult.error "redis get raised", [], []⟩
  | RState.up _ =>
    match O.net url with
    | none => ⟨ParseResult.error "request failed", [url], []⟩
    | some text =>
      if containsSub url netMarker || containsSub url xyzMarker then
        let data_i := O.bodyDataI text
        let iframe_src := (O.iframeSrcOf text).getD ""
        if iframe_src = "" then
          ⟨ParseResult.error "No iframe found in the page", [url], []⟩
        else
          let iframe_url := normalize_iframe_src iframe_src
          match O.net iframe_url with
          | none => ⟨ParseResult.error "request failed", [url, iframe_url], []⟩
          | some iframe_content =>
            match O.loadIframeSrcOf iframe_content with
            | none =>
              let result := ParseResult.vidsrc none data_i none none
                (source_type_for url)
              ⟨result, [url, iframe_url],
                [⟨get_cache_key O url, CACHE_EXPIRE, result⟩]⟩
            | some player_iframe_src =>
              let full := full_player_url (O.domainOf iframe_url)
                player_iframe_src
              if full = "" then
                let result := ParseResult.vidsrc none data_i
                  (some (player_src_norm player_iframe_src)) (some full)
                  (source_type_for url)
                ⟨result, [url, iframe_url],
                  [⟨get_cache_key O url, CACHE_EXPIRE, result⟩]⟩
              else
                match O.net full with
                | none =>
                  let result := ParseResult.vidsrc none data_i
                    (some (player_src_norm player_iframe_src)) (some full)
                    (source_type_for url)
                  ⟨result, [url, iframe_url, full],
                    [⟨get_cache_key O url, CACHE_EXPIRE, result⟩]⟩
                | some content2 =>
                  let result := ParseResult.vidsrc (O.filePatternOf content2)
                    data_i (some (player_src_norm player_iframe_src))
                    (some full) (source_type_for url)
                  ⟨result, [url, iframe_url, full],
                    [⟨get_cache_key O url, CACHE_EXPIRE, result⟩]⟩
      else
        let result := ParseResult.unknown url (O.titleOf text)
          (O.firstParagraphOf text) (source_type_for url)
        ⟨result, [url], [⟨get_cache_key O url, CACHE_EXPIRE, result⟩]⟩

/-- A persisted `MovieLink` row joined with its movie, with exactly the
attributes the model class declares (src/api/models.py:96-137): the two
external identifiers of the movie, the master-playlist URL, and the
`transcript_id` property.  The class declares NO `source_type` field
(only the table column in the initial migration has one), so an instance
exposes no such attribute — which is why the read of `link.source_type`
at src/api/views.py:675 raises `AttributeError`. -/
structure LinkRec where
  movie_imdb_id : Option String
  movie_tmdb_id : Option String
  m3u8_url : String
  transcript_id : Option String
deriving DecidableEq

/-- One item of the JSON response array `{id, m3u8, transcriptid}`.  The
fields are optional strings because the source can place None (JSON null)
into any of them. -/
structure LinkItem where
  id : Option String
  m3u8 : Option String
  transcriptid : Option String
deriving DecidableEq

/-- Mapping of a parse result to a response item (src/api/views.py:753-773).
The first assignment of `movie_id` (lines 755-758) is dead — it is always
overwritten by the `source_type` selection (lines 761-766) — so only the
latter appears. -/
def result_to_item (imdb_id tmdb_id : Option String) (r : ParseResult) :
    LinkItem :=
  { id := if source_type_of r = some "imdb" then imdb_id
      else if source_type_of r = some "tmdb" then tmdb_id
      else pyOr imdb_id tmdb_id,
    m3u8 := file_url_field r,
    transcriptid := transcript_id_field r }

/-- JSON responses of the with-fallback endpoint: the 200 array, a plain
error with HTTP status, or the 500 error carrying the attempted URLs. -/
inductive Resp where
  | items (l : List LinkItem)
  | err (status : Nat) (msg : String)
  | errUrls (status : Nat) (msg : String) (attempted_urls : List String)
deriving DecidableEq

/-- Side effects of one request: cache keys read, URLs fetched upstream,
cache writes done inside the resolver, cache writes done by the
explicit save of the orchestrator, and rows persisted to the database. -/
structure Effects where
  reads : List String
  fetches : List String
  parseWrites : List CacheWrite
  saveWrites : List CacheWrite
  dbSaves : List LinkRec
deriving DecidableEq

/-- The empty effect record. -/
def noEffects : Effects := ⟨[], [], [], [], []⟩

/-- Model of `save_to_database` (src/api/views.py:76-79): the body is `pass` — nothing
is ever persisted. -/
def save_to_database (_imdb_id _tmdb_id : Option String)
    (_parse_results : List ParseResult) : List LinkRec := []

/-- The tmdb-derived candidate URL (src/api/views.py:178): the id embedded as
a query parameter. -/
def tmdb_url (tmdb_id : Option String) : String :=
  "https://vidsrc.net/embed/movie?tmdb=" ++ tmdb_id.getD ""

/-- The imdb-derived candidate URL (src/api/views.py:182): the id embedded as
a path segment. -/
def imdb_url (imdb_id : Option String) : String :=
  "https://vidsrc.xyz/embed/movie/" ++ imdb_id.getD ""

/-- Model of `construct_vidsrc_urls` (src/api/views.py:171-183): tmdb template first,
imdb template second, one URL per truthy identifier. -/
def construct_vidsrc_urls (tmdb_id imdb_id : Option String) : List String :=
  (if truthy tmdb_id then [tmdb_url tmdb_id] else [])
    ++ (if truthy imdb_id then [imdb_url imdb_id] else [])

/-- The fallback (no-database-rows) part of
`MovieLinksWithFallbackAPIView.post` (src/api/views.py:690-775): construct
candidate URLs, split them by cache hit, parse the misses, write the
successful parses through to the cache, persist (a no-op) and build the
response array.  The `source_url` annotation the source adds to each
successful dict (lines 721, 732) is dropped: no response field reads it. -/
def fallbackPost (O : Oracles) (rs : RState)
    (imdb_id tmdb_id : Option String) : Resp × Effects :=
  let urls_to_parse := construct_vidsrc_urls tmdb_id imdb_id
  if urls_to_parse.isEmpty then
    (Resp.err 400 "No valid URLs could be constructed from provided IDs",
      noEffects)
  else
    let cached_results := urls_to_parse.filterMap
      (fun u => (get_url_cache_result O rs u).map (fun v => (u, v)))
    let urls_to_actually_parse := urls_to_parse.filter
      (fun u => (get_url_cache_result O rs u).isNone)
    let cached_succ := cached_results.filter (fun p => isSuccessful p.2)
    let runs := urls_to_actually_parse.map
      (fun u => (u, parse_vidsrc_url O rs u))
    let parsed_succ := runs.filter (fun p => isSuccessful p.2.result)
    let successful_results := cached_succ.map (fun p => p.2)
      ++ parsed_succ.map (fun p => p.2.result)
    let eff : Effects :=
      { reads := urls_to_parse,
        fetches := (runs.map (fun p => p.2.fetches)).flatten,
        parseWrites := (runs.map (fun p => p.2.writes)).flatten,
        saveWrites := (parsed_succ.map
          (fun p => save_url_cache_result O rs p.1 p.2.result)).flatten,
        dbSaves := [] }
    if successful_results.isEmpty then
      (Resp.errUrls 500 "Failed to parse any of the constructed URLs"
        urls_to_parse, eff)
    else
      (Resp.items (successful_results.map (result_to_item imdb_id tmdb_id)),
        { eff with
          dbSaves := save_to_database imdb_id tmdb_id successful_results })

/-- Model of `MovieLinksWithFallbackAPIView.post` (src/api/views.py:632-785):
validation, database branch, then the fallback.  `links` is the result of
`MovieLink.get_links_by_movie_ids` (the database, an external collaborator).
When links exist, the first loop iteration reads `link.source_type`
(views.py:675), an attribute the `MovieLink` class does not declare
(src/api/models.py:96-137); the resulting `AttributeError` is caught by the
blanket handler at views.py:781-785, which returns the 500 catch-all — so
the branch yields the internal-error response with no fetch, no cache access
and no write of any kind, never the mapped link array the loop was written
to build. -/
def moviePost (O : Oracles) (rs : RState) (links : List LinkRec)
    (imdb_id tmdb_id : Option String) : Resp × Effects :=
  if !(truthy imdb_id || truthy tmdb_id) then
    (Resp.err 400 "At least one of imdb_id or tmdb is required", noEffects)
  else if !links.isEmpty then
    (Resp.err 500 "Internal server error", noEffects)
  else
    fallbackPost O rs imdb_id tmdb_id

/-- Does the parse result carry the error key? -/
def isError : ParseResult → Bool
  | ParseResult.error _ => true
  | _ => false

/-- An oracle with no reachable pages; used to instantiate theorems with
hypotheses at concrete inputs. -/
def Onull : Oracles :=
  { net := fun _ => none, bodyDataI := fun _ => none,
    iframeSrcOf := fun _ => none, loadIframeSrcOf := fun _ => none,
    filePatternOf := fun _ => none, titleOf := fun _ => "",
    firstParagraphOf := fun _ => "", domainOf := fun _ => "",
    hashHex := fun u => u }

/-- A concrete world for the unknown-template scenario: one reachable page on
an unrecognized domain.  The hash oracle is the identity so that cache keys
are readable. -/
def Ounknown : Oracles :=
  { net := fun u => if u = "https://other.example/x" then some "pagebody"
      else none,
    bodyDataI := fun _ => none, iframeSrcOf := fun _ => none,
    loadIframeSrcOf := fun _ => none, filePatternOf := fun _ => none,
    titleOf := fun t => if t = "pagebody" then "Some Title" else "",
    firstParagraphOf := fun t => if t = "pagebody" then "First para" else "",
    domainOf := fun _ => "", hashHex := fun u => u }

/-- A concrete world for scenario D: the tmdb-derived URL resolves through the
full chain to a manifest, every other root fetch fails. -/
def Oscen : Oracles :=
  { net := fun u =>
      if u = "https://vidsrc.net/embed/movie?tmdb=603" then some "rootpage"
      else if u = "https://frame.host/f" then some "framedoc"
      else if u = "https://frame.host/player" then some "playerdoc"
      else none,
    bodyDataI := fun t => if t = "rootpage" then some "abc123" else none,
    iframeSrcOf := fun t => if t = "rootpage" then some "https://frame.host/f"
      else none,
    loadIframeSrcOf := fun t => if t = "framedoc" then some "player" else none,
    filePatternOf := fun t => if t = "playerdoc" then
      some "https://cdn.example/master.m3u8" else none,
    titleOf := fun _ => "", firstParagraphOf := fun _ => "",
    domainOf := fun u => if u = "https://frame.host/f" then "https://frame.host"
      else "",
    hashHex := fun u => u }

/-- Byte-multiple length and roundtrip helper for PKCS7 padding. -/
theorem unpad_pad (d : List Nat) : unpad_data (pad_data d) = some d := by
  have hlt : d.length % 16 < 16 := Nat.mod_lt _ (by norm_num)
  have hpos : 0 < 16 - d.length % 16 := by omega
  set p := 16 - d.length % 16 with hp
  have hrep : List.replicate p p ≠ [] := by
    simp [List.replicate, ← List.length_eq_zero]
    omega
  unfold pad_data unpad_data
  rw [List.getLast?_append_of_ne_nil _ hrep]
  obtain ⟨q, hq⟩ : ∃ q, p = q + 1 := ⟨p - 1, by omega⟩
  rw [hq, List.replicate_succ', List.getLast?_concat, ← hq]
  have hne : p ≠ 0 := by omega
  simp only [hne, if_false]
  rw [List.length_append, List.length_replicate]
  have : d.length + p - p = d.length := by omega
  rw [this, List.take_left]

/-- Claim C10: PKCS7 pad-then-unpad is the identity on every byte string, and
the padded string always has positive length that is a multiple of 16. -/
theorem c10_pad_roundtrip (d : List Nat) :
    unpad_data (pad_data d) = some d ∧
      (pad_data d).length % 16 = 0 ∧ 0 < (pad_data d).length := by
  refine ⟨unpad_pad d, ?_, ?_⟩ <;>
    · unfold pad_data
      rw [List.length_append, List.length_replicate]
      have hlt : d.length % 16 < 16 := Nat.mod_lt _ (by norm_num)
      omega

theorem pad_mod (d : List Nat) : (pad_data d).length % 16 = 0 := by
  unfold pad_data
  rw [List.length_append, List.length_replicate]
  have hlt : d.length % 16 < 16 := Nat.mod_lt _ (by norm_num)
  omega

theorem xorBytes_length (a b : List Nat) :
    (xorBytes a b).length = min a.length b.length := by
  simp [xorBytes]

theorem xorBytes_cancel : ∀ a b : List Nat, a.length = b.length →
    xorBytes a (xorBytes a b) = b
  | [], [], _ => rfl
  | [], _ :: _, h => by simp at h
  | _ :: _, [], h => by simp at h
  | x :: a, y :: b, h => by
    have h' : a.length = b.length := by simpa using h
    show (x ^^^ (x ^^^ y)) :: xorBytes a (xorBytes a b) = y :: b
    rw [← Nat.xor_assoc, Nat.xor_self, Nat.zero_xor, xorBytes_cancel a b h']

theorem chunksAux_congr : ∀ (f₁ f₂ : Nat) (l : List Nat),
    l.length ≤ f₁ → l.length ≤ f₂ → chunksAux f₁ l = chunksAux f₂ l
  | 0, f₂, l, h₁, _ => by
    have : l = [] := List.length_eq_zero.mp (by omega)
    subst this
    cases f₂ <;> rfl
  | f₁ + 1, 0, l, _, h₂ => by
    have : l = [] := List.length_eq_zero.mp (by omega)
    subst this
    rfl
  | f₁ + 1, f₂ + 1, [], _, _ => rfl
  | f₁ + 1, f₂ + 1, b :: rest, h₁, h₂ => by
    simp only [chunksAux]
    refine congrArg _ (chunksAux_congr f₁ f₂ _ ?_ ?_) <;>
      · simp only [List.length_drop, List.length_cons] at h₁ h₂ ⊢
        omega

theorem chunks16_unfold (l : List Nat) (h : l ≠ []) :
    chunks16 l = l.take 16 :: chunks16 (l.drop 16) := by
  obtain ⟨b, rest, rfl⟩ : ∃ b rest, l = b :: rest := by
    cases l with
    | nil => exact absurd rfl h
    | cons b rest => exact ⟨b, rest, rfl⟩
  show chunksAux (b :: rest).length (b :: rest) = _
  simp only [List.length_cons, chunksAux]
  refine congrArg _ (chunksAux_congr _ _ _ ?_ ?_)
  · simp only [List.length_drop, List.length_cons]
    omega
  · exact Nat.le_refl _

theorem chunks16_nil : chunks16 [] = [] := rfl

theorem chunks16_cons (b rest : List Nat) (hb : b.length = 16) :
    chunks16 (b ++ rest) = b :: chunks16 rest := by
  have hne : b ++ rest ≠ [] := by
    intro h
    have := congrArg List.length h
    simp [hb] at this
  rw [chunks16_unfold _ hne, List.take_left' hb, List.drop_left' hb]

theorem chunks16_flatten : ∀ bs : List (List Nat),
    (∀ b ∈ bs, b.length = 16) → chunks16 bs.flatten = bs
  | [], _ => rfl
  | b :: bs, h => by
    rw [List.flatten_cons, chunks16_cons b _ (h b (by simp)),
      chunks16_flatten bs (fun x hx => h x (by simp [hx]))]

theorem flatten_length_mod (cs : List (List Nat)) (h : ∀ c ∈ cs, c.length = 16) :
    cs.flatten.length % 16 = 0 := by
  induction cs with
  | nil => rfl
  | cons c cs ih =>
    rw [List.flatten_cons, List.length_append, h c (by simp)]
    have := ih (fun x hx => h x (by simp [hx]))
    omega

theorem chunks16_spec : ∀ (n : Nat) (l : List Nat), l.length ≤ n →
    l.length % 16 = 0 →
      (∀ b ∈ chunks16 l, b.length = 16) ∧ (chunks16 l).flatten = l
  | 0, l, hn, _ => by
    have : l = [] := List.length_eq_zero.mp (by omega)
    subst this
    exact ⟨by simp [chunks16_nil], rfl⟩
  | n + 1, l, hn, hmod => by
    rcases eq_or_ne l [] with rfl | hne
    · exact ⟨by simp [chunks16_nil], rfl⟩
    · have hpos : 0 < l.length := List.length_pos.mpr hne
      have h16 : 16 ≤ l.length := by
        rcases Nat.lt_or_ge l.length 16 with h | h
        · omega
        · exact h
      have htake : (l.take 16).length = 16 := by
        rw [List.length_take]
        omega
      have hdroplen : (l.drop 16).length = l.length - 16 := List.length_drop 16 l
      have ih := chunks16_spec n (l.drop 16) (by omega) (by omega)
      rw [chunks16_unfold l hne]
      constructor
      · intro b hb
        rcases List.mem_cons.mp hb with rfl | hb
        · exact htake
        · exact ih.1 b hb
      · rw [List.flatten_cons, ih.2, List.take_append_drop]

theorem cbcEnc_blocks_len (E : List Nat → List Nat)
    (hLen : ∀ b, b.length = 16 → (E b).length = 16) :
    ∀ (bs : List (List Nat)) (prev : List Nat), prev.length = 16 →
      (∀ b ∈ bs, b.length = 16) → ∀ c ∈ cbcEnc E prev bs, c.length = 16
  | [], _, _, _, c, hc => by simp [cbcEnc] at hc
  | b :: bs, prev, hprev, hbs, c, hc => by
    have hxl : (xorBytes prev b).length = 16 := by
      rw [xorBytes_length, hprev, hbs b (by simp)]
      simp
    have hEl : (E (xorBytes prev b)).length = 16 := hLen _ hxl
    rcases List.mem_cons.mp hc with rfl | hc
    · exact hEl
    · exact cbcEnc_blocks_len E hLen bs _ hEl
        (fun x hx => hbs x (by simp [hx])) c hc

theorem cbcDec_cbcEnc (E D : List Nat → List Nat)
    (hED : ∀ b, b.length = 16 → D (E b) = b)
    (hLen : ∀ b, b.length = 16 → (E b).length = 16) :
    ∀ (bs : List (List Nat)) (prev : List Nat), prev.length = 16 →
      (∀ b ∈ bs, b.length = 16) → cbcDec D prev (cbcEnc E prev bs) = bs
  | [], _, _, _ => rfl
  | b :: bs, prev, hprev, hbs => by
    have hb : b.length = 16 := hbs b (by simp)
    have hxl : (xorBytes prev b).length = 16 := by
      rw [xorBytes_length, hprev, hb]
      simp
    show xorBytes prev (D (E (xorBytes prev b))) :: _ = b :: bs
    rw [hED _ hxl, xorBytes_cancel prev b (by omega),
      cbcDec_cbcEnc E D hED hLen bs _ (hLen _ hxl)
        (fun x hx => hbs x (by simp [hx]))]

/-- AES-CBC decrypt-of-encrypt roundtrip for any block permutation with inverse. -/
theorem decrypt_encrypt_data (E D : List Nat → List Nat) (iv d : List Nat)
    (hiv : iv.length = 16)
    (hED : ∀ b, b.length = 16 → D (E b) = b)
    (hLen : ∀ b, b.length = 16 → (E b).length = 16)
    (hU : isValidUTF8 d = true) :
    decrypt_data D (encrypt_data E iv d) = some d := by
  have hspec := chunks16_spec (pad_data d).length (pad_data d) (Nat.le_refl _) (pad_mod d)
  have hcsl : ∀ c ∈ cbcEnc E iv (chunks16 (pad_data d)), c.length = 16 :=
    cbcEnc_blocks_len E hLen _ iv hiv hspec.1
  unfold encrypt_data decrypt_data
  rw [List.take_left' hiv, List.drop_left' hiv]
  simp only [flatten_length_mod _ hcsl, if_true]
  rw [chunks16_flatten _ hcsl,
    cbcDec_cbcEnc E D hED hLen _ iv hiv hspec.1, hspec.2, unpad_pad d]
  simp [hU]

/-- Claim C6: for every JSON-serializable payload, hybrid-decrypting the
envelope produced by hybrid-encrypting the payload returns the original
payload.  `AESe`/`AESd` are the library AES block permutation and its inverse,
`Renc`/`Rdec` the RSA-OAEP pair for the key pair, and `dumps`/`loads` the
JSON serializer pair; the hypotheses are exactly the library contracts. -/
theorem c6_hybrid_roundtrip {α : Type} (AESe AESd : List Nat → List Nat → List Nat)
    (Renc Rdec : List Nat → List Nat) (dumps : α → List Nat)
    (loads : List Nat → Option α) (session_key iv : List Nat) (payload : α)
    (hR : Rdec (Renc session_key) = session_key)
    (hAES : ∀ b, b.length = 16 → AESd session_key (AESe session_key b) = b)
    (hAESlen : ∀ b, b.length = 16 → (AESe session_key b).length = 16)
    (hiv : iv.length = 16)
    (hloads : loads (dumps payload) = some payload)
    (hutf : isValidUTF8 (dumps payload) = true) :
    decrypt_request AESd Rdec loads
      (encrypt_response AESe Renc session_key iv dumps payload) =
      some (ReqOut.json payload) := by
  unfold decrypt_request encrypt_response decrypt_payload encrypt_payload
  simp only [hR]
  rw [decrypt_encrypt_data (AESe session_key) (AESd session_key) iv
    (dumps payload) hiv hAES hAESlen hutf]
  simp [hloads]

/-- Witness for C6 at a concrete instantiation (identity block cipher and RSA
pair, identity JSON serializer, payload bytes of the two-character object
string). -/
theorem c6_hybrid_roundtrip_witness :
    decrypt_request (fun _ b => b) (fun k => k) (fun s => some s)
      (encrypt_response (fun _ b => b) (fun k => k) (List.replicate 32 0)
        (List.replicate 16 0) (fun s => s) [123, 125]) =
      some (ReqOut.json [123, 125]) := by
  exact c6_hybrid_roundtrip (fun _ b => b) (fun _ b => b) (fun k => k)
    (fun k => k) (fun s => s) (fun s => some s) (List.replicate 32 0)
    (List.replicate 16 0) [123, 125] rfl (fun b _ => rfl) (fun b h => h)
    (by simp) rfl (by decide)

theorem getLast?_replicate_pos (k x : Nat) (h : 0 < k) :
    (List.replicate k x).getLast? = some x := by
  obtain ⟨q, rfl⟩ : ∃ q, k = q + 1 := ⟨k - 1, by omega⟩
  rw [List.replicate_succ', List.getLast?_concat]

theorem chunks16_single (l : List Nat) (h : l.length = 16) : chunks16 l = [l] := by
  have hne : l ≠ [] := by
    intro hq
    subst hq
    simp at h
  rw [chunks16_unfold l hne, List.take_of_length_le (by omega),
    List.drop_eq_nil_of_le (by omega), chunks16_nil]

theorem flipByte_length : ∀ (i d : Nat) (l : List Nat),
    (flipByte i d l).length = l.length
  | 0, _, [] => rfl
  | _ + 1, _, [] => rfl
  | 0, _, _ :: _ => rfl
  | i + 1, d, _ :: rest => by
    show (flipByte i d rest).length + 1 = rest.length + 1
    rw [flipByte_length i d rest]

theorem flipByte_append_left : ∀ (i d : Nat) (l₁ l₂ : List Nat), i < l₁.length →
    flipByte i d (l₁ ++ l₂) = flipByte i d l₁ ++ l₂
  | _, _, [], _, h => by simp at h
  | 0, _, _ :: _, _, _ => rfl
  | i + 1, d, b :: r, l₂, h =>
    congrArg (List.cons b) (flipByte_append_left i d r l₂ (by simpa using h))

theorem flipByte_xorBytes : ∀ (i d : Nat) (a b : List Nat),
    i < a.length → i < b.length →
      xorBytes (flipByte i d a) b = flipByte i d (xorBytes a b)
  | _, _, [], _, h, _ => by simp at h
  | _, _, _ :: _, [], _, h => by simp at h
  | 0, d, x :: as, y :: bs, _, _ => by
    show ((x ^^^ d) ^^^ y) :: xorBytes as bs = ((x ^^^ y) ^^^ d) :: xorBytes as bs
    rw [Nat.xor_assoc, Nat.xor_comm d y, ← Nat.xor_assoc]
  | i + 1, d, x :: as, y :: bs, h₁, h₂ => by
    show (x ^^^ y) :: xorBytes (flipByte i d as) bs =
      (x ^^^ y) :: flipByte i d (xorBytes as bs)
    rw [flipByte_xorBytes i d as bs (by simpa using h₁) (by simpa using h₂)]

theorem flipByte_ne : ∀ (i d : Nat) (l : List Nat), i < l.length → d ≠ 0 →
    flipByte i d l ≠ l
  | _, _, [], h, _ => by simp at h
  | 0, d, b :: rest, _, hd => by
    intro hcontra
    have hb : b ^^^ d = b := (List.cons.injEq _ _ _ _ ▸ hcontra).1
    have : d = 0 := by
      have h2 := congrArg (fun z => b ^^^ z) hb
      simpa [← Nat.xor_assoc, Nat.xor_self, Nat.zero_xor] using h2
    exact hd this
  | i + 1, d, b :: rest, h, hd => by
    intro hcontra
    exact flipByte_ne i d rest (by simpa using h) hd
      (List.cons.injEq _ _ _ _ ▸ hcontra).2

theorem unpad_flip (p : List Nat) (j delta : Nat) (hp : p.length < 16)
    (hj : j < p.length) :
    unpad_data (flipByte j delta (pad_data p)) = some (flipByte j delta p) := by
  have hmod : p.length % 16 = p.length := Nat.mod_eq_of_lt hp
  have hpad : pad_data p =
      p ++ List.replicate (16 - p.length) (16 - p.length) := by
    unfold pad_data
    rw [hmod]
  have hkpos : 0 < 16 - p.length := by omega
  have hrep : List.replicate (16 - p.length) (16 - p.length) ≠ [] := by
    simp [← List.length_eq_zero, List.length_replicate]
    omega
  rw [hpad, flipByte_append_left j delta p _ hj]
  unfold unpad_data
  rw [List.getLast?_append_of_ne_nil _ hrep, getLast?_replicate_pos _ _ hkpos]
  have hkne : 16 - p.length ≠ 0 := by omega
  simp only [hkne, if_false]
  rw [List.length_append, flipByte_length, List.length_replicate]
  have heq : p.length + (16 - p.length) - (16 - p.length) = p.length := by omega
  rw [heq, ← flipByte_length j delta p, List.take_left]

/-- Claim C4 (amended): the scheme has no integrity protection.  For every
block cipher with inverse, every single-block plaintext and every single-byte
flip inside the IV portion of `encrypted_data` at an index below the plaintext
length, decryption SUCCEEDS and returns a plaintext that differs from the
original — it does not raise the decryption error. -/
theorem c4_iv_flip_decrypts (E D : List Nat → List Nat) (iv p : List Nat)
    (j delta : Nat)
    (hED : ∀ b, b.length = 16 → D (E b) = b)
    (hLen : ∀ b, b.length = 16 → (E b).length = 16)
    (hiv : iv.length = 16) (hp : p.length < 16) (hj : j < p.length)
    (hdelta : delta ≠ 0)
    (hU : isValidUTF8 (flipByte j delta p) = true) :
    decrypt_data D (flipByte j delta (encrypt_data E iv p)) =
      some (flipByte j delta p) ∧ flipByte j delta p ≠ p := by
  refine ⟨?_, flipByte_ne j delta p hj hdelta⟩
  have hpadlen : (pad_data p).length = 16 := by
    unfold pad_data
    rw [List.length_append, List.length_replicate]
    have := Nat.mod_eq_of_lt hp
    omega
  have hxlen : (xorBytes iv (pad_data p)).length = 16 := by
    rw [xorBytes_length, hiv, hpadlen]
    simp
  have hc : (E (xorBytes iv (pad_data p))).length = 16 := hLen _ hxlen
  unfold encrypt_data
  rw [chunks16_single _ hpadlen]
  simp only [cbcEnc, List.flatten_cons, List.flatten_nil, List.append_nil]
  rw [flipByte_append_left j delta iv _ (by omega)]
  have hfl : (flipByte j delta iv).length = 16 := by
    rw [flipByte_length, hiv]
  unfold decrypt_data
  rw [List.take_left' hfl, List.drop_left' hfl]
  simp only [hc]
  rw [if_pos trivial, chunks16_single _ hc]
  simp only [cbcDec, List.flatten_cons, List.flatten_nil, List.append_nil]
  rw [hED _ hxlen,
    flipByte_xorBytes j delta iv (xorBytes iv (pad_data p)) (by omega) (by omega),
    xorBytes_cancel iv (pad_data p) (by omega),
    unpad_flip p j delta hp hj]
  simp [hU]

/-- Witness for the amended C4 at the identity block cipher, zero IV and the
two-byte plaintext of the serialized empty JSON object. -/
theorem c4_iv_flip_decrypts_witness :
    decrypt_data (fun b => b)
        (flipByte 0 1 (encrypt_data (fun b => b) (List.replicate 16 0) [123, 125])) =
      some (flipByte 0 1 [123, 125]) ∧ flipByte 0 1 [123, 125] ≠ [123, 125] := by
  exact c4_iv_flip_decrypts (fun b => b) (fun b => b) (List.replicate 16 0)
    [123, 125] 0 1 (fun b _ => rfl) (fun b h => h) (by simp) (by decide)
    (by decide) (by decide) (by decide)

/-- Counterexample to C4 as stated: flipping the very first byte of
`encrypted_data` of a concrete envelope does NOT make decryption fail — it
succeeds and returns the corrupted plaintext [122, 125] in place of the
original [123, 125]. -/
theorem c4_counterexample :
    decrypt_data (fun b => b)
        (flipByte 0 1 (encrypt_data (fun b => b) (List.replicate 16 0) [123, 125])) =
      some [122, 125] ∧ ([122, 125] : List Nat) ≠ [123, 125] := by
  constructor
  · decide
  · decide

/-- Claim C9: when both external identifiers are absent the orchestrator
returns the 400 missing-identifier error and performs no I/O at all: no
upstream fetch, no cache read or write, no persistence. -/
theorem c9_missing_identifiers (O : Oracles) (rs : RState)
    (links : List LinkRec) :
    moviePost O rs links none none =
      (Resp.err 400 "At least one of imdb_id or tmdb is required",
        noEffects) := rfl

/-- Claim C2 (evaluation at the failing input): with the Redis client absent
or raising, the cache get returns absent and the cache put writes nothing —
but the resolver does NOT degrade to always-fetch: with the client absent it
performs no fetch at all and returns the NameError-derived error dict
(because the root-page fetch sits inside the `if r:` block), and with a
raising client the `r.get` raises before the fetch with the same effect. -/
theorem c2_cache_unreachable (O : Oracles) (u : String) (v : ParseResult) :
    get_url_cache_result O RState.absent u = none
    ∧ get_url_cache_result O RState.failing u = none
    ∧ save_url_cache_result O RState.absent u v = []
    ∧ save_url_cache_result O RState.failing u v = []
    ∧ parse_vidsrc_url O RState.absent u =
        ⟨ParseResult.error "NameError: soup is not defined", [], []⟩
    ∧ (parse_vidsrc_url O RState.absent u).fetches = []
    ∧ (parse_vidsrc_url O RState.failing u).fetches = [] :=
  ⟨rfl, rfl, rfl, rfl, rfl, rfl, rfl⟩

theorem parse_writes_ttl (O : Oracles) (rs : RState) (u : String) :
    ∀ w ∈ (parse_vidsrc_url O rs u).writes, w.ttl = CACHE_EXPIRE := by
  intro w hw
  unfold parse_vidsrc_url at hw
  repeat' split at hw
  all_goals try simp_all
  all_goals repeat' split at hw
  all_goals simp_all

theorem parse_writes_not_error (O : Oracles) (rs : RState) (u : String) :
    ∀ w ∈ (parse_vidsrc_url O rs u).writes, isError w.value = false := by
  intro w hw
  unfold parse_vidsrc_url at hw
  repeat' split at hw
  all_goals try simp_all
  all_goals repeat' split at hw
  all_goals simp_all [isError]

theorem fallbackPost_parseWrites (O : Oracles) (rs : RState)
    (imdb_id tmdb_id : Option String) :
    (fallbackPost O rs imdb_id tmdb_id).2.parseWrites =
      (((construct_vidsrc_urls tmdb_id imdb_id).filter
        (fun u => (get_url_cache_result O rs u).isNone)).map
          (fun u => (parse_vidsrc_url O rs u).writes)).flatten := by
  unfold fallbackPost
  dsimp only
  split
  · next h =>
    rw [List.isEmpty_iff.mp h]
    rfl
  · split <;> simp [noEffects, List.map_map] <;> rfl

theorem fallbackPost_saveWrites (O : Oracles) (rs : RState)
    (imdb_id tmdb_id : Option String) :
    (fallbackPost O rs imdb_id tmdb_id).2.saveWrites =
      (((((construct_vidsrc_urls tmdb_id imdb_id).filter
        (fun u => (get_url_cache_result O rs u).isNone)).map
          (fun u => (u, parse_vidsrc_url O rs u))).filter
            (fun p => isSuccessful p.2.result)).map
              (fun p => save_url_cache_result O rs p.1 p.2.result)).flatten := by
  unfold fallbackPost
  dsimp only
  split
  · next h =>
    rw [List.isEmpty_iff.mp h]
    rfl
  · split <;> rfl

theorem fallbackPost_dbSaves (O : Oracles) (rs : RState)
    (imdb_id tmdb_id : Option String) :
    (fallbackPost O rs imdb_id tmdb_id).2.dbSaves = [] := by
  unfold fallbackPost
  dsimp only
  split
  · rfl
  · split
    · rfl
    · simp [save_to_database]

theorem moviePost_parseWrites (O : Oracles) (rs : RState) (links : List LinkRec)
    (imdb_id tmdb_id : Option String) :
    ∀ w ∈ (moviePost O rs links imdb_id tmdb_id).2.parseWrites,
      ∃ u, w ∈ (parse_vidsrc_url O rs u).writes := by
  intro w hw
  unfold moviePost at hw
  split at hw
  · simp [noEffects] at hw
  · split at hw
    · simp [noEffects] at hw
    · rw [fallbackPost_parseWrites] at hw
      simp only [List.mem_flatten, List.mem_map] at hw
      obtain ⟨bs, ⟨u, hu, rfl⟩, hwbs⟩ := hw
      exact ⟨u, hwbs⟩

theorem moviePost_saveWrites (O : Oracles) (rs : RState) (links : List LinkRec)
    (imdb_id tmdb_id : Option String) :
    ∀ w ∈ (moviePost O rs links imdb_id tmdb_id).2.saveWrites,
      isSuccessful w.value = true ∧ w.ttl = CACHE_EXPIRE := by
  intro w hw
  unfold moviePost at hw
  split at hw
  · simp [noEffects] at hw
  · split at hw
    · simp [noEffects] at hw
    · rw [fallbackPost_saveWrites] at hw
      simp only [List.mem_flatten, List.mem_map, List.mem_filter] at hw
      obtain ⟨bs, ⟨p, ⟨hp, hsucc⟩, rfl⟩, hwbs⟩ := hw
      unfold save_url_cache_result at hwbs
      rcases rs with _ | _ | store
      · simp at hwbs
      · simp at hwbs
      · simp only [List.mem_singleton] at hwbs
        subst hwbs
        exact ⟨hsucc, rfl⟩

theorem moviePost_dbSaves (O : Oracles) (rs : RState) (links : List LinkRec)
    (imdb_id tmdb_id : Option String) :
    (moviePost O rs links imdb_id tmdb_id).2.dbSaves = [] := by
  unfold moviePost
  split
  · rfl
  · split
    · rfl
    · exact fallbackPost_dbSaves O rs imdb_id tmdb_id

/-- Claim C5: every cache write — inside the resolver and in the
save path of the orchestrator — uses the single constant `CACHE_EXPIRE` as its
time-to-live, with no per-entry override; and that constant evaluates to
2880, which Redis `SETEX` interprets as 2880 seconds (48 minutes), not a
duration on the order of two days. -/
theorem c5_ttl_uniform :
    CACHE_EXPIRE = 2880
    ∧ (∀ (O : Oracles) (rs : RState) (u : String),
        ((parse_vidsrc_url O rs u).writes.all
          (fun w => w.ttl == CACHE_EXPIRE)) = true)
    ∧ (∀ (O : Oracles) (rs : RState) (u : String) (v : ParseResult),
        ((save_url_cache_result O rs u v).all
          (fun w => w.ttl == CACHE_EXPIRE)) = true)
    ∧ (∀ (O : Oracles) (rs : RState) (links : List LinkRec)
        (imdb_id tmdb_id : Option String),
        (((moviePost O rs links imdb_id tmdb_id).2.parseWrites
          ++ (moviePost O rs links imdb_id tmdb_id).2.saveWrites).all
            (fun w => w.ttl == CACHE_EXPIRE)) = true) := by
  refine ⟨rfl, ?_, ?_, ?_⟩
  · intro O rs u
    simp only [List.all_eq_true, beq_iff_eq]
    exact parse_writes_ttl O rs u
  · intro O rs u v
    unfold save_url_cache_result
    rcases rs with _ | _ | store <;> simp
  · intro O rs links imdb_id tmdb_id
    simp only [List.all_eq_true, List.mem_append, beq_iff_eq]
    intro w hw
    rcases hw with hw | hw
    · obtain ⟨u, hu⟩ := moviePost_parseWrites O rs links imdb_id tmdb_id w hw
      exact parse_writes_ttl O rs u w hu
    · exact (moviePost_saveWrites O rs links imdb_id tmdb_id w hw).2

/-- Claim C3 (amended): the explicit cache-save path of the orchestrator stores
only successful results, nothing is ever persisted to durable storage (the
persist function is a no-op), and error results are never cached; but the
resolver itself caches every result it builds without raising — the
unsuccessful ones (manifest absent, unknown-template fallback) included, as
the counterexample shows. -/
theorem c3_success_gating (O : Oracles) (rs : RState) (links : List LinkRec)
    (imdb_id tmdb_id : Option String) :
    ((moviePost O rs links imdb_id tmdb_id).2.saveWrites.all
      (fun w => isSuccessful w.value)) = true
    ∧ (moviePost O rs links imdb_id tmdb_id).2.dbSaves = []
    ∧ (∀ u : String,
        ((parse_vidsrc_url O rs u).writes.all
          (fun w => !isError w.value)) = true) := by
  refine ⟨?_, moviePost_dbSaves O rs links imdb_id tmdb_id, ?_⟩
  · simp only [List.all_eq_true]
    intro w hw
    exact (moviePost_saveWrites O rs links imdb_id tmdb_id w hw).1
  · intro u
    simp only [List.all_eq_true, Bool.not_eq_eq_eq_not, Bool.not_true]
    exact parse_writes_not_error O rs u

/-- Counterexample to C3 as stated: resolving an unknown-template page writes
the unsuccessful fallback result (no manifest URL) to the cache store. -/
theorem c3_counterexample :
    (parse_vidsrc_url Ounknown (RState.up []) "https://other.example/x").writes =
      [⟨"parsed_url:https://other.example/x", 2880,
        ParseResult.unknown "https://other.example/x" "Some Title" "First para"
          none⟩]
    ∧ isSuccessful (ParseResult.unknown "https://other.example/x" "Some Title"
        "First para" none) = false := by
  constructor
  · decide
  · decide

/-- Counterexample to C8 as stated: the nested player reference is NOT
normalized by the same three-branch rule as the frame reference — on a
protocol-relative reference the frame rule prepends the fixed scheme while
the player rule prepends the frame origin, giving different addresses. -/
theorem c8_counterexample :
    full_player_url "https://cloudnestra.example" "//mirror.example/p" ≠
      normalize_iframe_src "//mirror.example/p" := by decide

/-- Claim C8 (amended): the frame-source normalization has exactly the three
stated branches (protocol-relative references get the fixed scheme prepended;
everything else — absolute or not — is returned as given), but the nested
player reference uses a DIFFERENT two-branch rule: absolute (http-prefixed)
references are kept as given, and every other non-empty reference gets the
frame origin prepended with a leading slash ensured; in particular
protocol-relative player references are not special-cased. -/
theorem c8_normalization_rules (s d : String) :
    (strStartsWith s "//" = true → normalize_iframe_src s = "https:" ++ s)
    ∧ (strStartsWith s "//" = false → normalize_iframe_src s = s)
    ∧ (strStartsWith s "http" = true → full_player_url d s = s)
    ∧ (s = "" → full_player_url d s = s)
    ∧ (s ≠ "" → strStartsWith s "http" = false →
        full_player_url d s = d ++ ensureSlash s) := by
  refine ⟨?_, ?_, ?_, ?_, ?_⟩
  · intro h
    simp [normalize_iframe_src, h]
  · intro h
    unfold normalize_iframe_src
    rw [h]
    simp only [Bool.false_eq_true, if_false]
    split <;> rfl
  · intro h
    simp [full_player_url, h]
  · intro h
    subst h
    simp [full_player_url]
  · intro h1 h2
    have hne : (s != "") = true := by simpa [bne_iff_ne] using h1
    simp [full_player_url, hne, h2]

/-- Witness for the amended C8 at concrete references. -/
theorem c8_normalization_rules_witness :
    normalize_iframe_src "//cdn.example/a" = "https:" ++ "//cdn.example/a"
    ∧ full_player_url "https://h.example" "player" =
        "https://h.example" ++ ensureSlash "player" :=
  ⟨(c8_normalization_rules "//cdn.example/a" "x").1 (by decide),
   (c8_normalization_rules "player" "https://h.example").2.2.2.2 (by decide)
     (by decide)⟩

/-- Claim C1 (code evaluation at the failing input): whenever persisted
links exist and the identifiers validate, the endpoint does NOT map them by
source-kind — the loop reads `link.source_type`, an attribute the
`MovieLink` model class never declares, so the first iteration raises
`AttributeError` and the blanket handler returns the 500 internal-error
response, with no upstream contact, no cache access and no write. -/
theorem c1_db_links_500 (O : Oracles) (rs : RState) (links : List LinkRec)
    (imdb_id tmdb_id : Option String)
    (hids : (truthy imdb_id || truthy tmdb_id) = true)
    (hlinks : links ≠ []) :
    moviePost O rs links imdb_id tmdb_id =
      (Resp.err 500 "Internal server error", noEffects) := by
  rcases links with _ | ⟨a, t⟩
  · exact absurd rfl hlinks
  · unfold moviePost
    rw [if_neg (by simp [hids])]
    rfl

/-- Witness for C1 at one persisted link. -/
theorem c1_db_links_500_witness :
    moviePost Onull RState.absent
      [⟨none, some "603", "https://m.example/x.m3u8", none⟩]
      (some "tt1") (some "603") =
      (Resp.err 500 "Internal server error", noEffects) :=
  c1_db_links_500 Onull RState.absent
    [⟨none, some "603", "https://m.example/x.m3u8", none⟩]
    (some "tt1") (some "603") (by decide) (by decide)

theorem listContains_nil : ∀ s : List Char, listContains [] s = true
  | [] => rfl
  | _ :: _ => rfl

theorem listPrefixOf_append : ∀ (pat s t : List Char),
    listPrefixOf pat s = true → listPrefixOf pat (s ++ t) = true
  | [], _, _, _ => rfl
  | _ :: _, [], _, h => by simp [listPrefixOf] at h
  | a :: as, b :: bs, t, h => by
    simp only [List.cons_append, listPrefixOf, Bool.and_eq_true] at h ⊢
    exact ⟨h.1, listPrefixOf_append as bs t h.2⟩

theorem listContains_append : ∀ (pat s t : List Char),
    listContains pat s = true → listContains pat (s ++ t) = true
  | pat, [], t, h => by
    cases pat with
    | nil => exact listContains_nil t
    | cons a as => simp [listContains, listPrefixOf] at h
  | pat, c :: rest, t, h => by
    simp only [listContains, Bool.or_eq_true] at h
    rcases h with h | h
    · have hp := listPrefixOf_append pat (c :: rest) t h
      simp only [List.cons_append] at hp ⊢
      simp [listContains, hp]
    · simp only [List.cons_append, listContains, Bool.or_eq_true]
      exact Or.inr (listContains_append pat rest t h)

theorem containsSub_append (s t pat : String) (h : containsSub s pat = true) :
    containsSub (s ++ t) pat = true := by
  unfold containsSub at h ⊢
  rw [show (s ++ t).data = s.data ++ t.data from rfl]
  exact listContains_append pat.data s.data t.data h

/-- Every tmdb-derived candidate URL contains the tmdb family marker, so the
resolver records its results with source-kind tmdb. -/
theorem tmdb_url_contains (tmdb_id : Option String) :
    containsSub (tmdb_url tmdb_id) netMarker = true := by
  unfold tmdb_url
  exact containsSub_append "https://vidsrc.net/embed/movie?tmdb="
    (tmdb_id.getD "") netMarker (by decide)

theorem successful_not_error (r : ParseResult)
    (h : isSuccessful r = true) : isError r = false := by
  rcases r with ⟨f, i, p, fu, st⟩ | _ | m
  · rfl
  · rfl
  · simp [isSuccessful] at h

/-- Any non-error result of the resolver carries the source-kind computed
from its URL. -/
theorem parse_source_type (O : Oracles) (rs : RState) (u : String) :
    source_type_of (parse_vidsrc_url O rs u).result = source_type_for u
    ∨ isError (parse_vidsrc_url O rs u).result = true := by
  rcases rs with _ | _ | store
  · right
    rfl
  · right
    rfl
  · unfold parse_vidsrc_url
    rcases hnet : O.net u with _ | text
    · right
      rfl
    · dsimp only
      by_cases hmk : (containsSub u netMarker || containsSub u xyzMarker) = true
      · rw [if_pos hmk]
        by_cases hif : (O.iframeSrcOf text).getD "" = ""
        · rw [if_pos hif]
          right
          rfl
        · rw [if_neg hif]
          rcases hn2 : O.net (normalize_iframe_src ((O.iframeSrcOf text).getD ""))
            with _ | ic
          · right
            rfl
          · dsimp only
            rcases hl : O.loadIframeSrcOf ic with _ | ps
            · left
              rfl
            · dsimp only
              by_cases hfull : full_player_url
                (O.domainOf (normalize_iframe_src ((O.iframeSrcOf text).getD "")))
                  ps = ""
              · rw [if_pos hfull]
                left
                rfl
              · rw [if_neg hfull]
                rcases hn3 : O.net (full_player_url
                    (O.domainOf (normalize_iframe_src
                      ((O.iframeSrcOf text).getD ""))) ps) with _ | c2
                · left
                  rfl
                · left
                  rfl
      · rw [if_neg hmk]
        left
        rfl

/-- Claim C7 (scenario D): both identifiers supplied, no persisted record,
cache misses on both candidate URLs, and only the tmdb-derived URL resolves
successfully — the response array has exactly one item and its id is the tmdb
identifier, selected by the recorded source-kind of the result. -/
theorem c7_scenario_d (O : Oracles) (rs : RState)
    (imdb_id tmdb_id : Option String)
    (hti : truthy imdb_id = true) (htt : truthy tmdb_id = true)
    (hcT : get_url_cache_result O rs (tmdb_url tmdb_id) = none)
    (hcI : get_url_cache_result O rs (imdb_url imdb_id) = none)
    (hsT : isSuccessful (parse_vidsrc_url O rs (tmdb_url tmdb_id)).result
      = true)
    (hsI : isSuccessful (parse_vidsrc_url O rs (imdb_url imdb_id)).result
      = false) :
    (moviePost O rs [] imdb_id tmdb_id).1 =
      Resp.items [⟨tmdb_id,
        file_url_field (parse_vidsrc_url O rs (tmdb_url tmdb_id)).result,
        transcript_id_field
          (parse_vidsrc_url O rs (tmdb_url tmdb_id)).result⟩] := by
  have hurls : construct_vidsrc_urls tmdb_id imdb_id =
      [tmdb_url tmdb_id, imdb_url imdb_id] := by
    unfold construct_vidsrc_urls
    rw [if_pos htt, if_pos hti]
    rfl
  have hmain : moviePost O rs [] imdb_id tmdb_id =
      fallbackPost O rs imdb_id tmdb_id := by
    unfold moviePost
    rw [if_neg (by simp [hti, htt])]
    rfl
  have hsrc : source_type_of
      (parse_vidsrc_url O rs (tmdb_url tmdb_id)).result = some "tmdb" := by
    rcases parse_source_type O rs (tmdb_url tmdb_id) with h | h
    · rw [h]
      simp [source_type_for, tmdb_url_contains]
    · rw [successful_not_error _ hsT] at h
      exact absurd h (by simp)
  rw [hmain]
  unfold fallbackPost
  rw [hurls]
  dsimp only
  rw [if_neg (by simp)]
  simp only [List.filterMap_cons, List.filterMap_nil, hcT, hcI,
    Option.map_none', List.filter_cons, List.filter_nil, Option.isNone_none,
    List.map_cons, List.map_nil, hsT, hsI]
  simp only [if_true, if_false, List.filter_cons, List.filter_nil, hsT, hsI,
    List.map_cons, List.map_nil, List.nil_append, List.isEmpty_cons]
  rw [if_neg (by simp)]
  unfold result_to_item
  rw [hsrc]
  rfl

/-- Witness for C7: in the concrete world `Oscen` with both identifiers
supplied and an empty database, the response is exactly one item whose id is
the tmdb identifier. -/
theorem c7_scenario_d_witness :
    (moviePost Oscen (RState.up []) [] (some "tt1") (some "603")).1 =
      Resp.items [⟨some "603", some "https://cdn.example/master.m3u8",
        some "abc123"⟩] := by
  have h := c7_scenario_d Oscen (RState.up []) (some "tt1") (some "603")
    (by decide) (by decide) rfl rfl (by decide) (by decide)
  rw [h]
  decide
